import Mathlib

/-!
Shallow embedding of the agritech_backend Flask service (src/app.py, with the
model architecture taken from src/train_model.py), together with proofs of the
behavioural properties stated about it.

Numeric sensor values and tensor entries are modelled as rationals; the byte
content of an uploaded file is a list of naturals.  External libraries (PIL
decoding, the TFLite interpreter, `requests`) are modelled as explicit
function-valued parameters of the environment, so that the handler itself is a
pure function of the request and the environment.
-/

namespace Agritech

/-- A sensor reading: the JSON object sent in the `sensor_data` form field,
with the four optional numeric keys read by `analyze_sensor_data`
(`data.get("temperature")` etc. in src/app.py lines 147-150). -/
structure SensorData where
  temperature : Option ℚ
  humidity : Option ℚ
  soil_moisture : Option ℚ
  light : Option ℚ
deriving DecidableEq

/-- The advisory emitted for temperature above 35 (src/app.py line 160). -/
def tempHighMsg : String :=
  "Temperature is high (above 35°C) — consider shade or irrigation to cool plants."

/-- The advisory emitted for temperature below 15 (src/app.py line 162). -/
def tempLowMsg : String :=
  "Temperature is low (below 15°C) — crop growth might slow down."

/-- The advisory emitted for temperature in [15, 25] (src/app.py line 164). -/
def tempOptimalMsg : String :=
  "Temperature is in optimal range for potato growth."

def humHighMsg : String :=
  "High humidity (above 80%) may promote fungal diseases like late blight."

def humLowMsg : String :=
  "Low humidity (below 30%) may cause plant dehydration."

def humModerateMsg : String :=
  "Humidity levels are moderate."

def soilVeryDryMsg : String :=
  "Soil is very dry — water plants immediately."

def soilDryMsg : String :=
  "Soil is becoming dry — consider watering soon."

def soilWetMsg : String :=
  "Soil may be waterlogged — ensure proper drainage to prevent root rot."

def soilGoodMsg : String :=
  "Soil moisture is in a good range."

def lightVeryHighMsg : String :=
  "Light level is very high — plants are getting strong sunlight."

def lightGoodMsg : String :=
  "Light level is good for plant growth."

def lightLowMsg : String :=
  "Light level is low — plants may not be getting enough sunlight for optimal photosynthesis."

/-- `analyze_sensor_data` (src/app.py lines 145-193): the sensor rule engine.
Each optional key is evaluated independently against fixed thresholds, in the
fixed source order temperature, humidity, soil_moisture, light, appending at
most one advisory per key to the accumulating list. -/
def analyze_sensor_data (data : SensorData) : List String :=
  let advice : List String := []
  let advice :=
    match data.temperature with
    | none => advice
    | some temp =>
      if temp > 35 then advice ++ [tempHighMsg]
      else if temp < 15 then advice ++ [tempLowMsg]
      else if 15 ≤ temp ∧ temp ≤ 25 then advice ++ [tempOptimalMsg]
      else advice
  let advice :=
    match data.humidity with
    | none => advice
    | some humidity =>
      if humidity > 80 then advice ++ [humHighMsg]
      else if humidity < 30 then advice ++ [humLowMsg]
      else advice ++ [humModerateMsg]
  let advice :=
    match data.soil_moisture with
    | none => advice
    | some soil_moisture =>
      if soil_moisture < 300 then advice ++ [soilVeryDryMsg]
      else if soil_moisture < 500 then advice ++ [soilDryMsg]
      else if soil_moisture > 800 then advice ++ [soilWetMsg]
      else advice ++ [soilGoodMsg]
  let advice :=
    match data.light with
    | none => advice
    | some light =>
      if light < 200 then advice ++ [lightVeryHighMsg]
      else if light < 500 then advice ++ [lightGoodMsg]
      else if light > 800 then advice ++ [lightLowMsg]
      else advice
  advice

/-- The advisories contributed by the temperature key alone. -/
def temperatureAdvice : Option ℚ → List String
  | none => []
  | some temp =>
    if temp > 35 then [tempHighMsg]
    else if temp < 15 then [tempLowMsg]
    else if 15 ≤ temp ∧ temp ≤ 25 then [tempOptimalMsg]
    else []

/-- The advisories contributed by the humidity key alone. -/
def humidityAdvice : Option ℚ → List String
  | none => []
  | some humidity =>
    if humidity > 80 then [humHighMsg]
    else if humidity < 30 then [humLowMsg]
    else [humModerateMsg]

/-- The advisories contributed by the soil_moisture key alone. -/
def soilMoistureAdvice : Option ℚ → List String
  | none => []
  | some soil_moisture =>
    if soil_moisture < 300 then [soilVeryDryMsg]
    else if soil_moisture < 500 then [soilDryMsg]
    else if soil_moisture > 800 then [soilWetMsg]
    else [soilGoodMsg]

/-- The advisories contributed by the light key alone. -/
def lightAdvice : Option ℚ → List String
  | none => []
  | some light =>
    if light < 200 then [lightVeryHighMsg]
    else if light < 500 then [lightGoodMsg]
    else if light > 800 then [lightLowMsg]
    else []

/-- Recogniser for the three temperature advisory strings. -/
def isTempAdvisory (s : String) : Bool :=
  s == tempHighMsg || s == tempLowMsg || s == tempOptimalMsg

/-! ### Remedy lookup (src/app.py lines 222-247) -/

def remedyEarlyBlight : String :=
  "1. Remove and destroy infected leaves immediately\n2. Apply copper-based fungicide every 7-10 days\n3. Improve air circulation between plants\n4. Water at the base of plants to keep foliage dry\n5. Rotate crops in the future to prevent disease buildup"

def remedyLateBlight : String :=
  "1. Apply fungicides with chlorothalonil or copper-based products\n2. Remove and destroy infected plants completely\n3. Avoid overhead watering and irrigate in the morning\n4. Increase plant spacing to improve air circulation\n5. Consider harvesting early if disease is widespread"

def remedyHealthy : String :=
  "Your potato plants appear healthy. Maintain good growing conditions:\n1. Continue balanced watering\n2. Apply fertilizer according to growth stage\n3. Monitor for pest activity\n4. Maintain good air circulation"

def remedyNoImage : String :=
  "No image was provided for disease detection. Monitoring sensor data only."

def remedyFallback : String :=
  "Consult an agricultural expert for diagnosis and treatment."

/-- The keys of the `remedies` dict in `get_remedy`. -/
def remedyKeys : List String :=
  ["Potato___Early_blight", "Potato___Late_blight", "Potato___Healthy", "No_image_provided"]

/-- `get_remedy` (src/app.py lines 222-247): a literal dict lookup with a
generic fallback for unknown labels. -/
def get_remedy (disease : String) : String :=
  let remedies : List (String × String) :=
    [("Potato___Early_blight", remedyEarlyBlight),
     ("Potato___Late_blight", remedyLateBlight),
     ("Potato___Healthy", remedyHealthy),
     ("No_image_provided", remedyNoImage)]
  ((remedies.lookup disease).getD remedyFallback)

/-! ### Weather lookup (src/app.py lines 196-219)

The outbound HTTP call is modelled by an `HttpResult` describing what the
network returned; Python exceptions are modelled by `PyExn`, and a computation
that may raise returns `Except PyExn α`.  JSON values are modelled by
`JsonVal`. -/

/-- The Python exceptions that the weather-lookup code can raise. -/
inductive PyExn where
  | requestException (msg : String)
  | indexError
  | keyError
  | attributeError
  | typeError
deriving DecidableEq

/-- A JSON value, as returned by `response.json()`. -/
inductive JsonVal where
  | null
  | bool (b : Bool)
  | num (q : ℚ)
  | str (s : String)
  | arr (elems : List JsonVal)
  | obj (fields : List (String × JsonVal))

/-- The outcome of `requests.get`: either a raised network exception or a
response with a status code and a JSON body. -/
inductive HttpResult where
  | netError (msg : String)
  | response (status : Nat) (body : JsonVal)

/-- Python `v.get(k, dflt)`: defined on dicts, raising `AttributeError` on any
other value. -/
def JsonVal.dictGet (v : JsonVal) (k : String) (dflt : JsonVal) : Except PyExn JsonVal :=
  match v with
  | .obj fields => .ok ((fields.lookup k).getD dflt)
  | _ => .error .attributeError

/-- Python `v[0]`: first element of a list (IndexError when empty), first
character of a string (IndexError when empty), `KeyError` on a dict whose keys
are strings, `TypeError` on other values. -/
def JsonVal.index0 : JsonVal → Except PyExn JsonVal
  | .arr [] => .error .indexError
  | .arr (x :: _) => .ok x
  | .str s => if s.isEmpty then .error .indexError else .ok (.str (s.take 1))
  | .obj _ => .error .keyError
  | .null => .error .typeError
  | .bool _ => .error .typeError
  | .num _ => .error .typeError

/-- The triple built by `get_weather_data` on success (each field may be the
JSON null when the corresponding nested field is missing). -/
structure WeatherData where
  temperature : JsonVal
  humidity : JsonVal
  conditions : JsonVal

/-- The body of the `try` block of `get_weather_data` (src/app.py lines
200-216): perform the GET, `raise_for_status` — which raises `HTTPError` only
for 4xx/5xx statuses (400-599); any other deliverable status proceeds — then
extract the three fields in the evaluation order of the dict literal at lines
210-214. -/
def weatherAttempt (http : HttpResult) : Except PyExn (Option WeatherData) :=
  match http with
  | .netError m => .error (.requestException m)
  | .response status body =>
    if 400 ≤ status ∧ status < 600 then
      .error (.requestException ("HTTP error " ++ toString status))
    else
      match body.dictGet "main" (.obj []) with
      | .error e => .error e
      | .ok mainForTemp =>
        match mainForTemp.dictGet "temp" .null with
        | .error e => .error e
        | .ok temp =>
          match body.dictGet "main" (.obj []) with
          | .error e => .error e
          | .ok mainForHum =>
            match mainForHum.dictGet "humidity" .null with
            | .error e => .error e
            | .ok hum =>
              match body.dictGet "weather" (.arr [.obj []]) with
              | .error e => .error e
              | .ok weatherList =>
                match weatherList.index0 with
                | .error e => .error e
                | .ok firstW =>
                  match firstW.dictGet "main" .null with
                  | .error e => .error e
                  | .ok cond => .ok (some ⟨temp, hum, cond⟩)

/-- `get_weather_data` (src/app.py lines 196-219).  A missing (or empty, hence
falsy) API key short-circuits to `None`; otherwise the `try` block runs and
only `requests.RequestException` is caught (returning `None`); any other
exception propagates to the caller. -/
def get_weather_data (key : Option String) (http : HttpResult) :
    Except PyExn (Option WeatherData) :=
  match key with
  | none => .ok none
  | some k =>
    if k = "" then .ok none
    else
      match weatherAttempt http with
      | .ok r => .ok r
      | .error (.requestException _) => .ok none
      | .error e => .error e

/-- Shape condition under which the field extraction of `get_weather_data`
cannot raise: the body is a JSON object, its "main" field (when present) is an
object, and its "weather" field (when present) is a non-empty array whose
first element is an object. -/
def wellShapedWeatherBody : JsonVal → Bool
  | .obj fields =>
    (match fields.lookup "main" with
     | none => true
     | some (.obj _) => true
     | some _ => false) &&
    (match fields.lookup "weather" with
     | none => true
     | some (.arr (.obj _ :: _)) => true
     | some _ => false)
  | _ => false

/-! ### The /predict handler (src/app.py lines 60-142)

The request is a multipart form: an optional `sensor_data` field (whose
`json.loads` outcome is modelled directly) and an optional `image` file.  The
external libraries touched by the handler — `file.save`, the PIL decode +
resize + normalise pipeline, and the TFLite interpreter — are modelled as
function-valued fields of the environment, each returning either a value or
the message of the Python exception it raised. -/

/-- `CLASS_NAMES` (src/app.py lines 47-51). -/
def CLASS_NAMES : List String :=
  ["Potato___Early_blight", "Potato___Late_blight", "Potato___Healthy"]

/-- `ALLOWED_EXTENSIONS` (src/app.py line 46). -/
def ALLOWED_EXTENSIONS : List String := ["png", "jpg", "jpeg"]

/-- `filename.rsplit('.', 1)[1]` on the character list: the characters after
the last dot (the whole string when no dot occurs; `allowed_file` only uses
this after checking that a dot occurs). -/
def afterLastDot : List Char → List Char → List Char
  | [], acc => acc
  | c :: rest, acc =>
    if c = '.' then afterLastDot rest [] else afterLastDot rest (acc ++ [c])

/-- `allowed_file` (src/app.py lines 56-57): the filename contains a dot and
the lower-cased text after the last dot is an allowed extension.  Strings are
handled through their character lists. -/
def allowed_file (filename : String) : Bool :=
  filename.data.contains '.' &&
    ALLOWED_EXTENSIONS.contains (String.mk ((afterLastDot filename.data []).map Char.toLower))

/-- `np.argmax` over a non-empty list: index of the first maximum.  The
accumulator holds the current position, best index and best value. -/
def npArgmaxAux : List ℚ → Nat → Nat → ℚ → Nat
  | [], _, besti, _ => besti
  | x :: xs, i, besti, bestv =>
    if bestv < x then npArgmaxAux xs (i + 1) i x
    else npArgmaxAux xs (i + 1) besti bestv

/-- `np.argmax` (raises on an empty array, modelled as `none`). -/
def npArgmax : List ℚ → Option Nat
  | [] => none
  | x :: xs => some (npArgmaxAux xs 1 0 x)

/-- `np.max` (raises on an empty array, modelled as `none`). -/
def npMax : List ℚ → Option ℚ
  | [] => none
  | x :: xs => some (xs.foldl max x)

/-- An uploaded file: the client-supplied filename and the raw bytes. -/
structure ImageFile where
  filename : String
  content : List Nat

/-- The `sensor_data` form field as the handler sees it: absent, present but
rejected by `json.loads`, or present and parsed into a sensor reading. -/
inductive SensorField where
  | absent
  | malformed (raw : String)
  | parsed (d : SensorData)

/-- A POST /predict request. -/
structure PredictRequest where
  sensor_data : SensorField
  image : Option ImageFile

/-- The loaded TFLite interpreter: `set_tensor` / `invoke` / `get_tensor` as a
pure function from the preprocessed input tensor to the output activations
(the weights are fixed inside), which may raise. -/
structure Interp where
  infer : List ℚ → Except String (List ℚ)

/-- Outcome of `file.save`: `error = some msg` when the save raised;
`created` records whether a file was left on disk at the temp path. -/
structure SaveOutcome where
  error : Option String
  created : Bool

/-- The process environment seen by one request: the interpreter loaded at
process start (`none` when loading failed), the behaviour of `file.save` and
of the PIL decode-resize-normalise pipeline on this request's data, and the
weather configuration. -/
structure Env where
  interpreter : Option Interp
  save : ImageFile → SaveOutcome
  decode : List Nat → Except String (List ℚ)
  weather_key : Option String
  http : HttpResult

/-- A response body: a structured error, or the success payload of
src/app.py lines 126-139 (the prediction triple disease/confidence/
recommendation is present exactly when an image was classified). -/
inductive Body where
  | error (message : String)
  | success (sensor_data : SensorData) (sensor_analysis : List String)
      (weather_data : Option WeatherData)
      (prediction : Option (String × ℚ × String))

/-- An HTTP response: status code and JSON body. -/
structure Response where
  status : Nat
  body : Body

/-- Result of the image branch of `predict` (src/app.py lines 78-120), before
the `finally` clause runs: `fileOnDisk` is whether the temp file exists at
that point and `inferCalled` whether `interpreter.invoke` ran. -/
inductive ImageStep where
  | noImage
  | badType
  | tryFailed (msg : String) (fileOnDisk : Bool) (inferCalled : Bool)
  | classified (cls : String) (conf : ℚ) (fileOnDisk : Bool) (inferCalled : Bool)

/-- The image-handling part of `predict` (src/app.py lines 78-112): detect
image presence, check the extension, then inside `try`: save the upload,
decode and preprocess, run one forward pass, and select
`CLASS_NAMES[np.argmax(output)]` with confidence `np.max(output)` — any raise
is captured as `tryFailed` with the exception's message. -/
def classify_image (env : Env) (interp : Interp) (oimg : Option ImageFile) : ImageStep :=
  match oimg with
  | none => .noImage
  | some file =>
    if file.filename = "" then .noImage
    else if ¬ allowed_file file.filename then .badType
    else
      let so := env.save file
      match so.error with
      | some msg => .tryFailed msg so.created false
      | none =>
        match env.decode file.content with
        | .error msg => .tryFailed msg true false
        | .ok tensor =>
          match interp.infer tensor with
          | .error msg => .tryFailed msg true true
          | .ok output =>
            match npArgmax output with
            | none => .tryFailed "attempt to get argmax of an empty sequence" true true
            | some idx =>
              match CLASS_NAMES.get? idx with
              | none => .tryFailed "list index out of range" true true
              | some cls => .classified cls ((npMax output).getD 0) true true

/-- The `finally` clause (src/app.py lines 113-116): remove the temp file when
the path variable was assigned and the file exists; returns whether the file
exists afterwards. -/
def runFinally (tempPathSet fileOnDisk : Bool) : Bool :=
  if tempPathSet && fileOnDisk then false else fileOnDisk

/-- Observable outcome of one `predict` call: the response (or the exception
that escaped the handler), whether the temp file remains on disk at the
terminal state, and which side operations ran. -/
structure RunResult where
  outcome : Except PyExn Response
  tempFileExists : Bool
  weatherCalled : Bool
  inferCalled : Bool
  sensorParseTried : Bool
  analysisCalled : Bool

/-- The tail of `predict` after the image branch (src/app.py lines 113-142):
run the `finally` clause, return early on an image error, otherwise call the
weather lookup (whose uncaught exceptions escape the handler) and the sensor
rule engine and assemble the JSON response. -/
def respond (env : Env) (sensor_data : SensorData) (sensorTried : Bool) (st : ImageStep) :
    RunResult :=
  match st with
  | .badType =>
    { outcome := .ok ⟨400, .error "Invalid file type"⟩, tempFileExists := false,
      weatherCalled := false, inferCalled := false, sensorParseTried := sensorTried,
      analysisCalled := false }
  | .tryFailed msg fd ic =>
    { outcome := .ok ⟨500, .error msg⟩, tempFileExists := runFinally true fd,
      weatherCalled := false, inferCalled := ic, sensorParseTried := sensorTried,
      analysisCalled := false }
  | .noImage =>
    match get_weather_data env.weather_key env.http with
    | .error e =>
      { outcome := .error e, tempFileExists := false, weatherCalled := true,
        inferCalled := false, sensorParseTried := sensorTried, analysisCalled := false }
    | .ok wd =>
      { outcome := .ok ⟨200, .success sensor_data (analyze_sensor_data sensor_data) wd none⟩,
        tempFileExists := false, weatherCalled := true, inferCalled := false,
        sensorParseTried := sensorTried, analysisCalled := true }
  | .classified cls conf fd ic =>
    match get_weather_data env.weather_key env.http with
    | .error e =>
      { outcome := .error e, tempFileExists := runFinally true fd, weatherCalled := true,
        inferCalled := ic, sensorParseTried := sensorTried, analysisCalled := false }
    | .ok wd =>
      { outcome := .ok ⟨200, .success sensor_data (analyze_sensor_data sensor_data) wd
          (some (cls, conf, get_remedy cls))⟩,
        tempFileExists := runFinally true fd, weatherCalled := true, inferCalled := ic,
        sensorParseTried := sensorTried, analysisCalled := true }

/-- `predict` (src/app.py lines 60-142): fail fast when the model is not
loaded, parse `sensor_data` (400 on a JSON decode error), then run the image
branch and the response assembly. -/
def predict (env : Env) (req : PredictRequest) : RunResult :=
  match env.interpreter with
  | none =>
    { outcome := .ok ⟨500, .error "Model not loaded"⟩, tempFileExists := false,
      weatherCalled := false, inferCalled := false, sensorParseTried := false,
      analysisCalled := false }
  | some interp =>
    match req.sensor_data with
    | .malformed _ =>
      { outcome := .ok ⟨400, .error "Invalid sensor data format"⟩, tempFileExists := false,
        weatherCalled := false, inferCalled := false, sensorParseTried := true,
        analysisCalled := false }
    | .absent =>
      respond env ⟨none, none, none, none⟩ false (classify_image env interp req.image)
    | .parsed d =>
      respond env d true (classify_image env interp req.image)

/-- `has_image` (src/app.py line 78): an `image` part is present with a
non-empty filename. -/
def hasImage (req : PredictRequest) : Bool :=
  match req.image with
  | none => false
  | some f => f.filename != ""

/-- The disease/confidence/recommendation triple of a run's response, when
the run produced a success response that classified an image. -/
def RunResult.prediction (r : RunResult) : Option (String × ℚ × String) :=
  match r.outcome with
  | .ok ⟨_, .success _ _ _ p⟩ => p
  | _ => none

/-! ### Concrete environments and requests used by witnesses and
counterexamples -/

/-- An environment whose model failed to load. -/
def envNoModel : Env :=
  { interpreter := none, save := fun _ => ⟨none, false⟩, decode := fun _ => .ok [],
    weather_key := none, http := .netError "down" }

/-- A deterministic interpreter producing the softmax-like output [0, 1, 0]. -/
def interpConst : Interp := ⟨fun _ => .ok [0, 1, 0]⟩

/-- An environment with the model loaded, no weather key, and external
libraries that succeed. -/
def envLoaded : Env :=
  { interpreter := some interpConst, save := fun _ => ⟨none, true⟩,
    decode := fun _ => .ok [0], weather_key := none, http := .netError "down" }

/-- A request carrying only parsed sensor data. -/
def reqSensorOnly : PredictRequest := ⟨.parsed ⟨some 20, none, none, none⟩, none⟩

/-- A request whose `sensor_data` field is not valid JSON. -/
def reqBadSensor : PredictRequest := ⟨.malformed "not json", none⟩

/-- A request with no image part and no sensor data. -/
def reqNoImage : PredictRequest := ⟨.absent, none⟩

/-- A valid JPEG upload. -/
def imgFile : ImageFile := ⟨"leaf.jpg", [1, 2, 3]⟩

/-- An image-only request. -/
def reqImg1 : PredictRequest := ⟨.absent, some imgFile⟩

/-- The same image together with sensor data. -/
def reqImg2 : PredictRequest := ⟨.parsed ⟨some 20, none, none, none⟩, some imgFile⟩

/-! ### Theorems -/

theorem append_temperature (a : List String) (t : Option ℚ) :
    (match t with
     | none => a
     | some temp =>
       if temp > 35 then a ++ [tempHighMsg]
       else if temp < 15 then a ++ [tempLowMsg]
       else if 15 ≤ temp ∧ temp ≤ 25 then a ++ [tempOptimalMsg]
       else a) = a ++ temperatureAdvice t := by
  cases t with
  | none => simp [temperatureAdvice]
  | some temp => simp only [temperatureAdvice]; split_ifs <;> simp

theorem append_humidity (a : List String) (h : Option ℚ) :
    (match h with
     | none => a
     | some humidity =>
       if humidity > 80 then a ++ [humHighMsg]
       else if humidity < 30 then a ++ [humLowMsg]
       else a ++ [humModerateMsg]) = a ++ humidityAdvice h := by
  cases h with
  | none => simp [humidityAdvice]
  | some humidity => simp only [humidityAdvice]; split_ifs <;> simp

theorem append_soil_moisture (a : List String) (s : Option ℚ) :
    (match s with
     | none => a
     | some soil_moisture =>
       if soil_moisture < 300 then a ++ [soilVeryDryMsg]
       else if soil_moisture < 500 then a ++ [soilDryMsg]
       else if soil_moisture > 800 then a ++ [soilWetMsg]
       else a ++ [soilGoodMsg]) = a ++ soilMoistureAdvice s := by
  cases s with
  | none => simp [soilMoistureAdvice]
  | some soil_moisture => simp only [soilMoistureAdvice]; split_ifs <;> simp

theorem append_light (a : List String) (l : Option ℚ) :
    (match l with
     | none => a
     | some light =>
       if light < 200 then a ++ [lightVeryHighMsg]
       else if light < 500 then a ++ [lightGoodMsg]
       else if light > 800 then a ++ [lightLowMsg]
       else a) = a ++ lightAdvice l := by
  cases l with
  | none => simp [lightAdvice]
  | some light => simp only [lightAdvice]; split_ifs <;> simp

/-- The rule engine evaluates the four keys in fixed order, so its output is
the concatenation of the four per-key advisory segments. -/
theorem analyze_sensor_data_eq (d : SensorData) :
    analyze_sensor_data d =
      temperatureAdvice d.temperature ++ humidityAdvice d.humidity ++
        soilMoistureAdvice d.soil_moisture ++ lightAdvice d.light := by
  show
    (let advice : List String := []
     let advice :=
       match d.temperature with
       | none => advice
       | some temp =>
         if temp > 35 then advice ++ [tempHighMsg]
         else if temp < 15 then advice ++ [tempLowMsg]
         else if 15 ≤ temp ∧ temp ≤ 25 then advice ++ [tempOptimalMsg]
         else advice
     let advice :=
       match d.humidity with
       | none => advice
       | some humidity =>
         if humidity > 80 then advice ++ [humHighMsg]
         else if humidity < 30 then advice ++ [humLowMsg]
         else advice ++ [humModerateMsg]
     let advice :=
       match d.soil_moisture with
       | none => advice
       | some soil_moisture =>
         if soil_moisture < 300 then advice ++ [soilVeryDryMsg]
         else if soil_moisture < 500 then advice ++ [soilDryMsg]
         else if soil_moisture > 800 then advice ++ [soilWetMsg]
         else advice ++ [soilGoodMsg]
     let advice :=
       match d.light with
       | none => advice
       | some light =>
         if light < 200 then advice ++ [lightVeryHighMsg]
         else if light < 500 then advice ++ [lightGoodMsg]
         else if light > 800 then advice ++ [lightLowMsg]
         else advice
     advice) =
      temperatureAdvice d.temperature ++ humidityAdvice d.humidity ++
        soilMoistureAdvice d.soil_moisture ++ lightAdvice d.light
  simp only []
  rw [append_temperature, append_humidity, append_soil_moisture, append_light]
  simp [List.append_assoc]

theorem countP_temperatureAdvice (t : ℚ) :
    (temperatureAdvice (some t)).countP isTempAdvisory =
      if t > 35 ∨ t < 15 ∨ (15 ≤ t ∧ t ≤ 25) then 1 else 0 := by
  simp only [temperatureAdvice]
  split_ifs <;> first | decide | tauto

theorem countP_humidityAdvice (o : Option ℚ) :
    (humidityAdvice o).countP isTempAdvisory = 0 := by
  cases o with
  | none => rfl
  | some h => simp only [humidityAdvice]; split_ifs <;> decide

theorem countP_soilMoistureAdvice (o : Option ℚ) :
    (soilMoistureAdvice o).countP isTempAdvisory = 0 := by
  cases o with
  | none => rfl
  | some s => simp only [soilMoistureAdvice]; split_ifs <;> decide

theorem countP_lightAdvice (o : Option ℚ) :
    (lightAdvice o).countP isTempAdvisory = 0 := by
  cases o with
  | none => rfl
  | some l => simp only [lightAdvice]; split_ifs <;> decide

/-- Claim C2, as stated, is false: for a reading whose temperature is 30
(present, but in the uncovered band 25 < t ≤ 35), the rule engine emits no
temperature advisory at all, so the output does not contain exactly one
temperature advisory. -/
theorem claim_C2_counterexample :
    ¬ (analyze_sensor_data ⟨some 30, none, none, none⟩).countP isTempAdvisory = 1 := by
  decide

/-- Claim C2, amended: when temperature `t` is present, a "high" advisory is
emitted when t > 35, a "low" advisory when t < 15, an "optimal" advisory when
15 ≤ t ≤ 25, and the output contains exactly one temperature advisory in those
bands and none when 25 < t ≤ 35. -/
theorem claim_C2_amended (d : SensorData) (t : ℚ) (h : d.temperature = some t) :
    (t > 35 → tempHighMsg ∈ analyze_sensor_data d) ∧
    (t < 15 → tempLowMsg ∈ analyze_sensor_data d) ∧
    (15 ≤ t ∧ t ≤ 25 → tempOptimalMsg ∈ analyze_sensor_data d) ∧
    (analyze_sensor_data d).countP isTempAdvisory =
      (if t > 35 ∨ t < 15 ∨ (15 ≤ t ∧ t ≤ 25) then 1 else 0) := by
  have hd : analyze_sensor_data d =
      temperatureAdvice (some t) ++ humidityAdvice d.humidity ++
        soilMoistureAdvice d.soil_moisture ++ lightAdvice d.light := by
    rw [analyze_sensor_data_eq, h]
  refine ⟨fun ht => ?_, fun ht => ?_, fun ht => ?_, ?_⟩
  · rw [hd]
    simp [temperatureAdvice, ht]
  · have h1 : ¬ (t > 35) := by linarith
    rw [hd]
    simp [temperatureAdvice, h1, ht]
  · have h1 : ¬ (t > 35) := by linarith [ht.2]
    have h2 : ¬ (t < 15) := by linarith [ht.1]
    rw [hd]
    simp [temperatureAdvice, h1, h2, ht.1, ht.2]
  · rw [hd]
    simp only [List.countP_append, countP_temperatureAdvice, countP_humidityAdvice,
      countP_soilMoistureAdvice, countP_lightAdvice]
    omega

/-- Witness for `claim_C2_amended` at temperature 40. -/
theorem claim_C2_amended_witness :
    tempHighMsg ∈ analyze_sensor_data ⟨some 40, none, none, none⟩ ∧
    (analyze_sensor_data ⟨some 40, none, none, none⟩).countP isTempAdvisory = 1 := by
  have h := claim_C2_amended ⟨some 40, none, none, none⟩ 40 rfl
  refine ⟨h.1 (by norm_num), ?_⟩
  rw [h.2.2.2]
  norm_num

/-- Claim C9: the rule engine returns the advisories in the fixed evaluation
order temperature, humidity, soil_moisture, light (its output is exactly the
concatenation of the four per-key segments in that order), and a reading
missing all four keys yields the empty list, with no error. -/
theorem claim_C9_order (d : SensorData) :
    (analyze_sensor_data d =
      temperatureAdvice d.temperature ++ humidityAdvice d.humidity ++
        soilMoistureAdvice d.soil_moisture ++ lightAdvice d.light) ∧
    analyze_sensor_data ⟨none, none, none, none⟩ = [] :=
  ⟨analyze_sensor_data_eq d, rfl⟩

/-- Claim C8: the remedy lookup is a total pure function: each of the three
disease labels maps to its fixed multi-line remedy string, and every label
outside the mapping maps to the generic fallback string. -/
theorem claim_C8_total :
    get_remedy "Potato___Early_blight" = remedyEarlyBlight ∧
    get_remedy "Potato___Late_blight" = remedyLateBlight ∧
    get_remedy "Potato___Healthy" = remedyHealthy ∧
    ∀ s : String, s ∉ remedyKeys → get_remedy s = remedyFallback := by
  refine ⟨rfl, rfl, rfl, fun s hs => ?_⟩
  simp only [remedyKeys, List.mem_cons, List.not_mem_nil, or_false, not_or] at hs
  obtain ⟨h1, h2, h3, h4⟩ := hs
  have e1 : (s == "Potato___Early_blight") = false := beq_eq_false_iff_ne.mpr h1
  have e2 : (s == "Potato___Late_blight") = false := beq_eq_false_iff_ne.mpr h2
  have e3 : (s == "Potato___Healthy") = false := beq_eq_false_iff_ne.mpr h3
  have e4 : (s == "No_image_provided") = false := beq_eq_false_iff_ne.mpr h4
  simp [get_remedy, List.lookup, e1, e2, e3, e4]

/-- Witness for `claim_C8_total` at the unknown label "Tomato". -/
theorem claim_C8_total_witness : get_remedy "Tomato" = remedyFallback :=
  claim_C8_total.2.2.2 "Tomato" (by decide)

/-- Claim C4, as stated, is false: on a 2xx response whose JSON body is the
object `{"weather": []}`, the expression `data.get('weather', [{}])[0]` raises
`IndexError`, which is not a `requests.RequestException` and therefore
propagates to the caller instead of degrading to an absent value. -/
theorem claim_C4_counterexample :
    get_weather_data (some "apikey") (.response 200 (.obj [("weather", .arr [])])) =
      .error .indexError := rfl

/-- Claim C4, amended: the weather lookup returns the no-data value when no
API key is configured, on any network error, and on any 4xx/5xx status (only
those statuses make `raise_for_status` raise); and on a 2xx response it
degrades missing fields to absent values without raising provided the body is
an object whose "main" field (if present) is an object and whose "weather"
field (if present) is a non-empty array of objects — for a present-but-empty
"weather" array (see `claim_C4_counterexample`) an uncaught exception
propagates. -/
theorem claim_C4_amended (k m : String) (st : Nat) (b : JsonVal) :
    (∀ h : HttpResult, get_weather_data none h = .ok none) ∧
    get_weather_data (some k) (.netError m) = .ok none ∧
    (400 ≤ st → st < 600 → get_weather_data (some k) (.response st b) = .ok none) ∧
    (k ≠ "" → st < 400 → wellShapedWeatherBody b = true →
      ∃ w : WeatherData, get_weather_data (some k) (.response st b) = .ok (some w)) := by
  refine ⟨fun h => rfl, ?_, fun hst hst2 => ?_, fun hk hlt hws => ?_⟩
  · by_cases hk : k = "" <;> simp [get_weather_data, weatherAttempt, hk]
  · by_cases hk : k = "" <;>
      simp [get_weather_data, weatherAttempt, hk,
        if_pos (show 400 ≤ st ∧ st < 600 from ⟨hst, hst2⟩)]
  · have hnot : ¬ (400 ≤ st ∧ st < 600) := by omega
    cases b with
    | null => simp [wellShapedWeatherBody] at hws
    | bool _ => simp [wellShapedWeatherBody] at hws
    | num _ => simp [wellShapedWeatherBody] at hws
    | str _ => simp [wellShapedWeatherBody] at hws
    | arr _ => simp [wellShapedWeatherBody] at hws
    | obj fields =>
      simp only [wellShapedWeatherBody, Bool.and_eq_true] at hws
      obtain ⟨hm, hw⟩ := hws
      simp only [get_weather_data, weatherAttempt, if_neg hnot, if_neg hk, JsonVal.dictGet]
      rcases hml : fields.lookup "main" with _ | mv
      · rcases hwl : fields.lookup "weather" with _ | wv
        · exact ⟨_, rfl⟩
        · try rw [hwl] at hw
          rcases wv with _ | _ | _ | _ | elems | _ <;> try simp at hw
          rcases elems with _ | ⟨w1, rest⟩
          · simp at hw
          · rcases w1 with _ | _ | _ | _ | _ | wf <;> try simp at hw
            exact ⟨_, rfl⟩
      · try rw [hml] at hm
        rcases mv with _ | _ | _ | _ | _ | mf <;> try simp at hm
        rcases hwl : fields.lookup "weather" with _ | wv
        · exact ⟨_, rfl⟩
        · try rw [hwl] at hw
          rcases wv with _ | _ | _ | _ | elems | _ <;> try simp at hw
          rcases elems with _ | ⟨w1, rest⟩
          · simp at hw
          · rcases w1 with _ | _ | _ | _ | _ | wf <;> try simp at hw
            exact ⟨_, rfl⟩

/-- Witness for `claim_C4_amended`: concrete instances of all four cases. -/
theorem claim_C4_amended_witness :
    get_weather_data none (.netError "x") = .ok none ∧
    get_weather_data (some "apikey") (.netError "timeout") = .ok none ∧
    get_weather_data (some "apikey") (.response 404 .null) = .ok none ∧
    ∃ w, get_weather_data (some "apikey")
        (.response 200 (.obj [("main", .obj [("temp", .num 25)])])) = .ok (some w) := by
  have h1 := claim_C4_amended "apikey" "timeout" 404 JsonVal.null
  have h2 := claim_C4_amended "apikey" "timeout" 200
    (JsonVal.obj [("main", .obj [("temp", .num 25)])])
  exact ⟨h1.1 (.netError "x"), h1.2.1, h1.2.2.1 (by norm_num) (by norm_num),
    h2.2.2.2 (by decide) (by norm_num) (by rfl)⟩

theorem runFinally_true (b : Bool) : runFinally true b = false := by
  cases b <;> rfl

theorem respond_tempFile (env : Env) (sd : SensorData) (tr : Bool) (st : ImageStep) :
    (respond env sd tr st).tempFileExists = false := by
  cases st with
  | noImage => cases hw : get_weather_data env.weather_key env.http <;> simp [respond, hw]
  | badType => rfl
  | tryFailed msg fd ic => cases fd <;> rfl
  | classified cls conf fd ic =>
    cases hw : get_weather_data env.weather_key env.http <;>
      simp [respond, hw, runFinally_true]

/-- Claim C3: on every exit path of the handler — success, 400s, a raised
preprocessing/inference exception (500), even an exception escaping from the
weather lookup — the temporary uploaded file no longer exists on disk at the
terminal state. -/
theorem claim_C3_temp_file_removed (env : Env) (req : PredictRequest) :
    (predict env req).tempFileExists = false := by
  unfold predict
  rcases henv : env.interpreter with _ | interp
  · rfl
  · rcases hs : req.sensor_data with _ | raw | d
    · exact respond_tempFile env ⟨none, none, none, none⟩ false _
    · rfl
    · exact respond_tempFile env d true _

/-- Claim C10: when the interpreter failed to load at process start, every
request — image or sensor-only alike — yields 500 "Model not loaded", and no
sensor-data parsing, sensor analysis, weather lookup or inference happens. -/
theorem claim_C10_model_not_loaded (env : Env) (req : PredictRequest)
    (h : env.interpreter = none) :
    predict env req =
      { outcome := .ok ⟨500, .error "Model not loaded"⟩, tempFileExists := false,
        weatherCalled := false, inferCalled := false, sensorParseTried := false,
        analysisCalled := false } := by
  unfold predict
  rw [h]

/-- Witness for `claim_C10_model_not_loaded`: a sensor-only request against
an environment whose model failed to load. -/
theorem claim_C10_model_not_loaded_witness :
    predict envNoModel reqSensorOnly =
      { outcome := .ok ⟨500, .error "Model not loaded"⟩, tempFileExists := false,
        weatherCalled := false, inferCalled := false, sensorParseTried := false,
        analysisCalled := false } :=
  claim_C10_model_not_loaded envNoModel reqSensorOnly rfl

/-- Claim C5, as stated, is false: a request whose `sensor_data` field is not
valid JSON is answered with 500 "Model not loaded", not 400 "Invalid sensor
data format", when the interpreter failed to load — the model check at
src/app.py line 62 precedes sensor parsing. -/
theorem claim_C5_counterexample :
    (predict envNoModel reqBadSensor).outcome ≠
      Except.ok ⟨400, Body.error "Invalid sensor data format"⟩ := by
  have h0 : (predict envNoModel reqBadSensor).outcome
      = Except.ok ⟨500, Body.error "Model not loaded"⟩ := rfl
  rw [h0]
  simp

/-- Claim C5, amended: given that the model interpreter is loaded, a request
whose `sensor_data` field is present but not valid JSON is answered with 400
"Invalid sensor data format", and neither classification nor the weather
lookup (nor the rule engine) runs for that request. -/
theorem claim_C5_amended (env : Env) (interp : Interp) (req : PredictRequest) (raw : String)
    (hi : env.interpreter = some interp) (hs : req.sensor_data = .malformed raw) :
    (predict env req).outcome = .ok ⟨400, .error "Invalid sensor data format"⟩ ∧
    (predict env req).inferCalled = false ∧
    (predict env req).weatherCalled = false ∧
    (predict env req).analysisCalled = false := by
  unfold predict
  rw [hi, hs]
  exact ⟨rfl, rfl, rfl, rfl⟩

/-- Witness for `claim_C5_amended`. -/
theorem claim_C5_amended_witness :
    (predict envLoaded reqBadSensor).outcome =
      .ok ⟨400, .error "Invalid sensor data format"⟩ ∧
    (predict envLoaded reqBadSensor).inferCalled = false ∧
    (predict envLoaded reqBadSensor).weatherCalled = false ∧
    (predict envLoaded reqBadSensor).analysisCalled = false :=
  claim_C5_amended envLoaded interpConst reqBadSensor "not json" rfl rfl

theorem classify_noImage (env : Env) (interp : Interp) (req : PredictRequest)
    (hni : hasImage req = false) : classify_image env interp req.image = .noImage := by
  obtain ⟨sf, oimg⟩ := req
  cases oimg with
  | none => rfl
  | some f =>
    simp only [hasImage, bne_eq_false_iff_eq] at hni
    simp [classify_image, hni]

/-- Claim C1, as stated, is false: a request with no image part is not
rejected with 400 "No image file provided" — the handler proceeds on the
sensor-only path and returns 200. -/
theorem claim_C1_counterexample :
    (predict envLoaded reqNoImage).outcome =
      .ok ⟨200, Body.success ⟨none, none, none, none⟩ [] none none⟩ ∧
    (predict envLoaded reqNoImage).outcome ≠
      .ok ⟨400, Body.error "No image file provided"⟩ := by
  refine ⟨rfl, ?_⟩
  have h0 : (predict envLoaded reqNoImage).outcome =
      .ok ⟨200, Body.success ⟨none, none, none, none⟩ [] none none⟩ := rfl
  rw [h0]
  simp

/-- Claim C1, amended: a request with no image field (or an empty filename)
is never answered with 400 "No image file provided"; instead, when the model
is loaded, the sensor data (if present) parses, and the weather lookup does
not raise, the handler returns 200 with a sensor-only success body carrying no
disease prediction. -/
theorem claim_C1_amended (env : Env) (req : PredictRequest) (hni : hasImage req = false) :
    (∀ resp : Response, (predict env req).outcome = .ok resp →
      ¬ (resp.status = 400 ∧ resp.body = Body.error "No image file provided")) ∧
    (∀ interp : Interp, env.interpreter = some interp →
      (∀ raw, req.sensor_data ≠ .malformed raw) →
      ∀ wd, get_weather_data env.weather_key env.http = .ok wd →
      ∃ sd : SensorData, (predict env req).outcome =
        .ok ⟨200, Body.success sd (analyze_sensor_data sd) wd none⟩) := by
  constructor
  · intro resp hresp hbad
    obtain ⟨hstatus, hbody⟩ := hbad
    rcases henv : env.interpreter with _ | interp
    · simp only [predict, henv, Except.ok.injEq] at hresp
      rw [← hresp] at hstatus
      simp at hstatus
    · have hcl := classify_noImage env interp req hni
      rcases hs : req.sensor_data with _ | raw | d
      · simp only [predict, henv, hs, hcl] at hresp
        rcases hw : get_weather_data env.weather_key env.http with e | wd <;>
          simp only [respond, hw] at hresp
        · cases hresp
        · simp only [Except.ok.injEq] at hresp
          rw [← hresp] at hstatus
          simp at hstatus
      · simp only [predict, henv, hs, Except.ok.injEq] at hresp
        rw [← hresp] at hbody
        simp at hbody
      · simp only [predict, henv, hs, hcl] at hresp
        rcases hw : get_weather_data env.weather_key env.http with e | wd <;>
          simp only [respond, hw] at hresp
        · cases hresp
        · simp only [Except.ok.injEq] at hresp
          rw [← hresp] at hstatus
          simp at hstatus
  · intro interp hi hparse wd hw
    have hcl := classify_noImage env interp req hni
    rcases hs : req.sensor_data with _ | raw | d
    · exact ⟨⟨none, none, none, none⟩, by simp only [predict, hi, hs, hcl, respond, hw]⟩
    · exact absurd hs (hparse raw)
    · exact ⟨d, by simp only [predict, hi, hs, hcl, respond, hw]⟩

/-- Witness for `claim_C1_amended`: the concrete no-image request of
`claim_C1_counterexample`. -/
theorem claim_C1_amended_witness :
    ∃ sd : SensorData, (predict envLoaded reqNoImage).outcome =
      .ok ⟨200, Body.success sd (analyze_sensor_data sd) none none⟩ :=
  (claim_C1_amended envLoaded reqNoImage rfl).2 interpConst rfl
    (fun _ h => nomatch h) none rfl

theorem respond_prediction (env : Env) (sd1 sd2 : SensorData) (tr1 tr2 : Bool)
    (st : ImageStep) :
    (respond env sd1 tr1 st).prediction = (respond env sd2 tr2 st).prediction := by
  cases st <;> cases hw : get_weather_data env.weather_key env.http <;>
    simp [respond, RunResult.prediction, hw]

/-- Claim C6: the classifier is deterministic — two requests carrying the same
image field (same bytes, same filename) against the same environment (same
model weights) receive the same predicted label, confidence and
recommendation, whatever their sensor payloads. -/
theorem claim_C6_deterministic (env : Env) (req1 req2 : PredictRequest)
    (himg : req1.image = req2.image)
    (h1 : ∀ raw, req1.sensor_data ≠ .malformed raw)
    (h2 : ∀ raw, req2.sensor_data ≠ .malformed raw) :
    (predict env req1).prediction = (predict env req2).prediction := by
  rcases henv : env.interpreter with _ | interp
  · simp only [predict, henv]
  · rcases hs1 : req1.sensor_data with _ | raw1 | d1
    · rcases hs2 : req2.sensor_data with _ | raw2 | d2
      · simp only [predict, henv, hs1, hs2, himg]
      · exact absurd hs2 (h2 raw2)
      · simp only [predict, henv, hs1, hs2, himg]
        exact respond_prediction env _ _ _ _ _
    · exact absurd hs1 (h1 raw1)
    · rcases hs2 : req2.sensor_data with _ | raw2 | d2
      · simp only [predict, henv, hs1, hs2, himg]
        exact respond_prediction env _ _ _ _ _
      · exact absurd hs2 (h2 raw2)
      · simp only [predict, henv, hs1, hs2, himg]
        exact respond_prediction env _ _ _ _ _

/-- Witness for `claim_C6_deterministic`: the same upload with and without a
sensor payload. -/
theorem claim_C6_deterministic_witness :
    (predict envLoaded reqImg1).prediction = (predict envLoaded reqImg2).prediction :=
  claim_C6_deterministic envLoaded reqImg1 reqImg2 rfl
    (fun _ h => nomatch h) (fun _ h => nomatch h)

theorem foldl_max_mem (x : ℚ) (xs : List ℚ) : xs.foldl max x ∈ x :: xs := by
  induction xs generalizing x with
  | nil => simp
  | cons y ys ih =>
    simp only [List.foldl]
    rcases List.mem_cons.mp (ih (max x y)) with h | h
    · rw [h]
      rcases max_choice x y with hm | hm <;> rw [hm]
      · exact List.mem_cons_self x _
      · exact List.mem_cons_of_mem x (List.mem_cons_self y ys)
    · exact List.mem_cons_of_mem x (List.mem_cons_of_mem y h)

theorem npMax_mem {l : List ℚ} {q : ℚ} (h : npMax l = some q) : q ∈ l := by
  cases l with
  | nil => cases h
  | cons x xs =>
    simp only [npMax, Option.some.injEq] at h
    rw [← h]
    exact foldl_max_mem x xs

theorem classify_image_classified (env : Env) (interp : Interp) (oimg : Option ImageFile)
    (cls : String) (conf : ℚ) (fd ic : Bool)
    (hr : ∀ t out, interp.infer t = .ok out → ∀ q ∈ out, 0 ≤ q ∧ q ≤ 1)
    (h : classify_image env interp oimg = .classified cls conf fd ic) :
    cls ∈ CLASS_NAMES ∧ 0 ≤ conf ∧ conf ≤ 1 := by
  rcases oimg with _ | file
  · simp [classify_image] at h
  · simp only [classify_image] at h
    by_cases hfn : file.filename = ""
    · rw [if_pos hfn] at h
      simp at h
    rw [if_neg hfn] at h
    rcases hab : allowed_file file.filename with _ | _
    · rw [hab] at h
      simp at h
    rw [hab] at h
    rw [if_neg (by simp : ¬ ¬ (true = true))] at h
    rcases hsv : (env.save file).error with _ | msg <;> rw [hsv] at h <;> try simp at h
    rcases hdec : env.decode file.content with msg | tensor <;> rw [hdec] at h <;>
      try simp at h
    rcases hinf : interp.infer tensor with msg | output <;> rw [hinf] at h <;> try simp at h
    rcases harg : npArgmax output with _ | idx <;> rw [harg] at h <;> try simp at h
    rcases hget : CLASS_NAMES[idx]? with _ | cls2 <;> rw [hget] at h <;> try simp at h
    obtain ⟨h1, h2, h3, h4⟩ := h
    have hget2 : CLASS_NAMES.get? idx = some cls2 := by
      rw [List.get?_eq_getElem?]
      exact hget
    have hmem := List.get?_mem hget2
    constructor
    · exact h1 ▸ hmem
    · cases output with
      | nil => cases harg
      | cons x xs =>
        have hb := hr tensor (x :: xs) hinf _ (foldl_max_mem x xs)
        rw [← h2]
        simpa [npMax] using hb

theorem prediction_some (env : Env) (req : PredictRequest) (cls : String) (conf : ℚ)
    (rec : String)
    (hp : (predict env req).prediction = some (cls, conf, rec)) :
    ∃ interp fd ic, env.interpreter = some interp ∧
      classify_image env interp req.image = .classified cls conf fd ic := by
  rcases henv : env.interpreter with _ | interp
  · simp [predict, henv, RunResult.prediction] at hp
  · rcases hs : req.sensor_data with _ | raw | d
    · rcases hc : classify_image env interp req.image with _ | _ | ⟨m, fd, ic⟩ | ⟨c2, cf2, fd, ic⟩
      · rcases hw : get_weather_data env.weather_key env.http with e | wd <;>
          simp [predict, henv, hs, hc, respond, RunResult.prediction, hw] at hp
      · simp [predict, henv, hs, hc, respond, RunResult.prediction] at hp
      · simp [predict, henv, hs, hc, respond, RunResult.prediction] at hp
      · rcases hw : get_weather_data env.weather_key env.http with e | wd <;>
          simp [predict, henv, hs, hc, respond, RunResult.prediction, hw] at hp
        obtain ⟨hp1, hp2, hp3⟩ := hp
        subst hp1
        subst hp2
        exact ⟨interp, fd, ic, rfl, hc⟩
    · simp [predict, henv, hs, RunResult.prediction] at hp
    · rcases hc : classify_image env interp req.image with _ | _ | ⟨m, fd, ic⟩ | ⟨c2, cf2, fd, ic⟩
      · rcases hw : get_weather_data env.weather_key env.http with e | wd <;>
          simp [predict, henv, hs, hc, respond, RunResult.prediction, hw] at hp
      · simp [predict, henv, hs, hc, respond, RunResult.prediction] at hp
      · simp [predict, henv, hs, hc, respond, RunResult.prediction] at hp
      · rcases hw : get_weather_data env.weather_key env.http with e | wd <;>
          simp [predict, henv, hs, hc, respond, RunResult.prediction, hw] at hp
        obtain ⟨hp1, hp2, hp3⟩ := hp
        subst hp1
        subst hp2
        exact ⟨interp, fd, ic, rfl, hc⟩

/-- Claim C7: whenever a request's response carries a classification, the
predicted label is one of the three fixed class names, and — given that the
interpreter's outputs are class probabilities in [0,1], as produced by the
softmax output layer of src/train_model.py — the returned confidence lies in
[0,1]. -/
theorem claim_C7_range (env : Env) (req : PredictRequest) (cls : String) (conf : ℚ)
    (rec : String)
    (hsoft : ∀ interp, env.interpreter = some interp →
      ∀ t out, interp.infer t = .ok out → ∀ q ∈ out, 0 ≤ q ∧ q ≤ 1)
    (hp : (predict env req).prediction = some (cls, conf, rec)) :
    cls ∈ CLASS_NAMES ∧ 0 ≤ conf ∧ conf ≤ 1 := by
  obtain ⟨interp, fd, ic, henv, hcl⟩ := prediction_some env req cls conf rec hp
  exact classify_image_classified env interp req.image cls conf fd ic (hsoft interp henv) hcl

set_option maxRecDepth 8192 in
/-- Witness for `claim_C7_range`: a concrete classified request. -/
theorem claim_C7_range_witness :
    "Potato___Late_blight" ∈ CLASS_NAMES ∧ 0 ≤ (1 : ℚ) ∧ (1 : ℚ) ≤ 1 := by
  refine claim_C7_range envLoaded reqImg1 "Potato___Late_blight" 1 remedyLateBlight ?_ ?_
  · intro interp hi t out hout q hq
    have hic : interpConst = interp := by
      have : some interpConst = some interp := hi
      injection this
    rw [← hic] at hout
    have hov : out = [0, 1, 0] := by
      have : Except.ok (ε := String) [(0 : ℚ), 1, 0] = .ok out := hout
      injection this with h
      exact h.symm
    subst hov
    fin_cases hq <;> norm_num
  · decide

end Agritech
